import Mathlib

/-!
Verification of the takahe state-machine task scheduler and its helpers.

Definitions are shallow embeddings of the Python source under `src/`.
The stator core (`stator/models.py`, `stator/graph.py`, `stator/runner.py`)
is not part of the analysed excerpt; where a claim depends on it, the
corresponding definition is modelled from the specification (`spec.md`)
and marked `Modelled from the spec:` in its doc comment.
-/

namespace Takahe

/-! ## `core/httpy.py`: `Client.post2` -/

/-- An HTTP response; only the status code matters for `post2`'s
error handling (from `httpx.Response` as used in `core/httpy.py`). -/
structure Response where
  status_code : Nat
deriving Repr, DecidableEq

/-- Shallow embedding of `Client.post2` (src/core/httpy.py lines 269-292),
restricted to its response-error handling: after `self.post(url, **params)`
returns `response`, it raises `ValueError` when
`response.status_code >= 400 and response.status_code < 500 and
response.status_code != 404`, and otherwise returns the response. -/
def post2 (response : Response) : Except String Response :=
  if response.status_code ≥ 400 ∧ response.status_code < 500 ∧
      response.status_code ≠ 404 then
    Except.error "POST error"
  else
    Except.ok response

/-! ## `core/middleware.py`: `ConfigLoadingMiddleware` -/

/-- The mutable state read and written by `ConfigLoadingMiddleware.__call__`:
the process-global `Config.system` cache (modelled as an optional opaque
payload) and the middleware instance's `config_ts` attribute.
`__init__` sets `config_ts = 0.0`, and `Config.system` starts unset. -/
structure ConfigCacheState where
  system : Option Nat
  config_ts : ℚ
deriving Repr, DecidableEq

/-- `ConfigLoadingMiddleware.refresh_interval` (src/core/middleware.py
line 14). -/
def refresh_interval : ℚ := 30

/-- Shallow embedding of `ConfigLoadingMiddleware.__call__`
(src/core/middleware.py lines 20-28).  `t1` is the value of `time()` in the
condition, `t2` the value of `time()` stored after `Config.load_system()`
returns, and `loaded` the config returned by `Config.load_system()`.
The response is `self.get_response(request)`, computed on the request
unchanged. -/
def configLoadingCall (st : ConfigCacheState) (t1 t2 : ℚ) (loaded : Nat)
    (get_response : Nat → Nat) (request : Nat) :
    ConfigCacheState × Nat :=
  let st' :=
    if st.system.isNone ∨ t1 - st.config_ts ≥ refresh_interval then
      { system := some loaded, config_ts := t2 }
    else
      st
  (st', get_response request)

/-! ## Stator scheduler core

The stator package (`stator/graph.py`, `stator/models.py`,
`stator/runner.py`) is not part of the analysed excerpt; the definitions
below are modelled from the specification and instantiated with the
graph data that is in the excerpt (`InboxMessageStates`). -/

/-- Modelled from the spec: a State of a state graph (spec §3) — a name,
a `try_interval` (minimum seconds between attempts, or none for a
terminal/externally-progressed state), an `externally_progressed` flag,
a `delete_after` retention window, and whether a handler is bound to it.
Corresponds to `stator.graph.State`, which is not in the excerpt. -/
structure State where
  name : String
  try_interval : Option Nat := none
  externally_progressed : Bool := false
  delete_after : Option Nat := none
  has_handler : Bool := false
deriving Repr, DecidableEq

/-- Modelled from the spec: a State Graph (spec §3, §4.1) — states plus
directed legal-transition edges and an initial state. Corresponds to
`stator.graph.StateGraph`, which is not in the excerpt. -/
structure StateGraph where
  states : List State
  transitions : List (String × String)
  initial : String

/-- Look up a state by name (spec §4.1 `state(name) -> State | not found`). -/
def StateGraph.findState (g : StateGraph) (name : String) : Option State :=
  g.states.find? (fun s => s.name == name)

/-- Modelled from the spec: `legal(from, to) -> bool` (spec §4.1) — an edge
is legal exactly when it was declared on the graph. -/
def StateGraph.legal (g : StateGraph) (src dst : String) : Bool :=
  g.transitions.contains (src, dst)

/-- Modelled from the spec: a Schedulable Entity's scheduling fields
(spec §3): current state, `state_changed`, `state_attempted`
(none = never attempted in this state), `state_attempts`.
Corresponds to `stator.models.StatorModel`, which is not in the excerpt. -/
structure Entity where
  state : String
  state_changed : Nat
  state_attempted : Option Nat
  state_attempts : Nat
deriving Repr, DecidableEq

/-- Modelled from the spec: a handler's outcome (spec §4.2 step 3) —
a target state name, an explicit defer, or a failure (exception or
timeout). -/
inductive HandlerResult
  | transition (target : String)
  | defer
  | error
deriving Repr, DecidableEq

/-- Modelled from the spec: the Transition Executor's interpretation of
one attempt (spec §4.2 steps 4-6). On a returned target state: if
`legal(entity.state, target)` then set `state := target`, reset
`state_changed := now`, reset `state_attempts := 0`; if illegal, leave the
state unchanged but still record the attempt. On failure or defer: leave
the state unchanged and increment `state_attempts`. In every case set
`state_attempted := now` (step 6). -/
def attempt (g : StateGraph) (e : Entity) (result : HandlerResult)
    (now : Nat) : Entity :=
  match result with
  | .transition target =>
      if g.legal e.state target then
        { state := target, state_changed := now,
          state_attempted := some now, state_attempts := 0 }
      else
        { e with state_attempted := some now,
                 state_attempts := e.state_attempts + 1 }
  | .defer =>
      { e with state_attempted := some now,
               state_attempts := e.state_attempts + 1 }
  | .error =>
      { e with state_attempted := some now,
               state_attempts := e.state_attempts + 1 }

/-- Modelled from the spec: due-entity selection (spec §4.3) — an entity
is due iff (a) its state has a handler, and (b) `externally_progressed`
is false and `now - state_attempted >= try_interval` (or it has never
been attempted in this state), or (c) it was explicitly signaled via the
External Signal Hook regardless of `externally_progressed`. -/
def isDue (g : StateGraph) (e : Entity) (signaled : Bool) (now : Nat) :
    Bool :=
  match g.findState e.state with
  | none => false
  | some s =>
      s.has_handler &&
        (signaled ||
          (!s.externally_progressed &&
            match e.state_attempted, s.try_interval with
            | none, _ => true
            | some ta, some ti => decide ((now : Int) - ta ≥ ti)
            | some _, none => false))

/-- Modelled from the spec: the Garbage Collector's deletion test
(spec §4.4) — delete entities whose current state has `delete_after`
set and `now - state_changed >= delete_after`, skipping entities
currently locked for execution. -/
def gcShouldDelete (g : StateGraph) (e : Entity) (locked : Bool)
    (now : Nat) : Bool :=
  if locked then false
  else
    match g.findState e.state with
    | none => false
    | some s =>
        match s.delete_after with
        | none => false
        | some d => decide ((now : Int) - e.state_changed ≥ d)

/-- Modelled from the spec: a forced/manual transition (spec §6,
`transition_perform`) — directly set the entity's state to the given
value without invoking a handler and without the graph's legality check;
the state change resets `state_attempts` (spec §3) and clears
`state_attempted` so the entity is immediately due for its new state on
the next pass. -/
def transition_perform (e : Entity) (target : String) (now : Nat) :
    Entity :=
  { state := target, state_changed := now,
    state_attempted := none, state_attempts := 0 }

/-- Modelled from the spec: one scheduling pass over a batch of due
entities (spec §4.3, §7) — every entity's handler outcome is captured
and recorded against the entity; handler errors never propagate to the
caller of the pass, which continues with the next entity. -/
def schedulerPass (g : StateGraph) (es : List Entity)
    (handlerResult : Entity → HandlerResult) (now : Nat) : List Entity :=
  es.map (fun e => attempt g e (handlerResult e) now)

/-- A sequence of failing attempts at the given times (each pass invokes
the handler, which fails; the outcome is recorded by `attempt`). -/
def failAttempts (g : StateGraph) (e : Entity) (times : List Nat) :
    Entity :=
  times.foldl (fun acc t => attempt g acc HandlerResult.error t) e

/-! ## Lock-based mutual exclusion of handler executions (spec §4.3, §5) -/

/-- Modelled from the spec: one handler execution on one entity
(spec §4.3 Locking) — the worker that ran it, the time of its atomic
claim, and the time its outcome was persisted (releasing the lock), or
none if the worker crashed mid-handler. -/
structure Execution where
  worker : Nat
  start : Nat
  result : Option Nat
deriving Repr, DecidableEq

/-- The instant an execution stops being in flight: when its outcome was
persisted, or — for a crashed worker — at the enforced handler timeout
`T` (spec §5: exceeding the timeout is treated as a failure and the
handler is cancelled). -/
def Execution.activeEnd (T : Nat) (x : Execution) : Nat :=
  match x.result with
  | some f => f
  | none => x.start + T

/-- The instant the entity's lock taken by this execution's claim stops
excluding other workers: on persisting the outcome, or — for a crashed
worker — at lock expiry `L` (spec §4.3: a crashed worker's claim is
eventually released). -/
def Execution.releaseTime (L : Nat) (x : Execution) : Nat :=
  match x.result with
  | some f => f
  | none => x.start + L

/-- A finished execution persisted its outcome within the handler window:
no earlier than its claim and no later than the enforced timeout `T`
(spec §5). -/
def Execution.wf (T : Nat) (x : Execution) : Prop :=
  ∀ f, x.result = some f → x.start ≤ f ∧ f ≤ x.start + T

/-- The execution is in flight at instant `t`. -/
def Execution.inFlight (T : Nat) (x : Execution) (t : Nat) : Prop :=
  x.start ≤ t ∧ t < x.activeEnd T

/-- Modelled from the spec: the per-entity history of handler executions,
most recent first. The atomic claim step (spec §4.3) admits a new
execution only once the previous claim's lock has been released or has
expired; two workers in the same or different processes therefore order
their claims through this condition. -/
inductive ValidHistory (T L : Nat) : List Execution → Prop
  | nil : ValidHistory T L []
  | first (x : Execution) (hwf : x.wf T) : ValidHistory T L [x]
  | cons (x prev : Execution) (rest : List Execution) (hwf : x.wf T)
      (hclaim : prev.releaseTime L ≤ x.start)
      (htail : ValidHistory T L (prev :: rest)) :
      ValidHistory T L (x :: prev :: rest)

/-! ## `users/models/inbox_message.py`: `InboxMessageStates` and its handler -/

/-- The JSON value at `message["object"]`: either a plain string (a URI)
or a dict; a dict carries its `"type"` value and the list of its keys. -/
inductive MsgObject
  | str (s : String)
  | dict (typ : String) (keys : List String)
deriving Repr, DecidableEq

/-- An inbox message's payload, as read by the `InboxMessage` properties
(src/users/models/inbox_message.py lines 201-225): the values at
`message["type"]` and `message["object"]`. -/
structure InboxMessage where
  type_value : String
  object_value : MsgObject
deriving Repr, DecidableEq

/-- Python `str.lower()` over the ASCII range used by the message-type
strings: lower-case every character. -/
def pyLower (s : String) : String :=
  ⟨s.data.map Char.toLower⟩

/-- `InboxMessage.message_type` (src/users/models/inbox_message.py
lines 201-203): `self.message["type"].lower()`. -/
def InboxMessage.message_type (m : InboxMessage) : String :=
  pyLower m.type_value

/-- `InboxMessage.message_object_type` (src/users/models/inbox_message.py
lines 205-210): `self.message["object"]["type"].lower()` when the object
is a dict, else `None`. -/
def InboxMessage.message_object_type (m : InboxMessage) : Option String :=
  match m.object_value with
  | .dict typ _ => some (pyLower typ)
  | .str _ => none

/-- `InboxMessage.message_object_has_content`
(src/users/models/inbox_message.py lines 223-225):
`"content" in self.message.get("object", {})` — key membership when the
object is a dict, Python substring containment when it is a string. -/
def InboxMessage.message_object_has_content (m : InboxMessage) : Bool :=
  match m.object_value with
  | .dict _ keys => keys.contains "content"
  | .str s => s.containsSubstr "content".toSubstring

/-- The business-logic functions `InboxMessageStates.handle_received`
dispatches to (src/users/models/inbox_message.py lines 15-174). -/
inductive DispatchCall
  | follow_handle_request_ap
  | block_handle_ap
  | post_interaction_handle_ap
  | post_handle_create_ap
  | post_handle_update_ap
  | identity_handle_update_ap
  | follow_handle_accept_ap
  | follow_handle_reject_ap
  | follow_handle_undo_ap
  | block_handle_undo_ap
  | post_interaction_handle_undo_ap
  | identity_handle_delete_ap
  | post_handle_delete_ap
  | report_handle_ap
  | post_handle_fetch_internal
  | timeline_event_handle_clear_timeline
  | identity_service_handle_internal_add_follow
deriving Repr, DecidableEq

/-- Inputs of `handle_received` that live outside the excerpt:
`Post.Types.names` (from `activities.models.post`) and the two database
existence queries in the `delete` branch. -/
structure HandlerEnv where
  post_type_names : List String
  identity_exists : Bool
  post_exists : Bool
deriving Repr, DecidableEq

namespace InboxMessageStates

/-- `InboxMessageStates.received` (src/users/models/inbox_message.py
line 8): `State(try_interval=300, delete_after=86400 * 3)`, with the
handler `handle_received` bound to it. -/
def received : State :=
  { name := "received", try_interval := some 300,
    delete_after := some (86400 * 3), has_handler := true }

/-- `InboxMessageStates.processed` (src/users/models/inbox_message.py
line 9): `State(externally_progressed=True, delete_after=86400)`;
no handler. -/
def processed : State :=
  { name := "processed", externally_progressed := true,
    delete_after := some 86400 }

/-- `InboxMessageStates.purge` (src/users/models/inbox_message.py
line 10): `State(delete_after=24 * 60 * 60)`; no handler. -/
def purge : State :=
  { name := "purge", delete_after := some (24 * 60 * 60) }

/-- The `InboxMessageStates` graph (src/users/models/inbox_message.py
lines 7-13): states `received`, `processed`, `purge`; edges
`received.transitions_to(processed)` and `processed.transitions_to(purge)`;
entities start in `received`. -/
def graph : StateGraph :=
  { states := [received, processed, purge],
    transitions := [("received", "processed"), ("processed", "purge")],
    initial := "received" }

/-- The dispatch performed by `InboxMessageStates.handle_received`
(src/users/models/inbox_message.py lines 15-173): the `match` on
`instance.message_type` and `instance.message_object_type`, returning the
list of business-logic calls made (empty for the deliberately ignored
cases) or the `ValueError` message raised. -/
def handleReceivedCalls (env : HandlerEnv) (m : InboxMessage) :
    Except String (List DispatchCall) :=
  match m.message_type with
  | "follow" => .ok [.follow_handle_request_ap]
  | "block" => .ok [.block_handle_ap]
  | "announce" => .ok [.post_interaction_handle_ap]
  | "like" => .ok [.post_interaction_handle_ap]
  | "create" =>
      match m.message_object_type with
      | some "note" =>
          if m.message_object_has_content then
            .ok [.post_handle_create_ap]
          else
            .ok [.post_interaction_handle_ap]
      | some "question" => .ok []
      | some unknown =>
          if env.post_type_names.contains unknown then
            .ok [.post_handle_create_ap]
          else
            .error ("Cannot handle activity of type create." ++ unknown)
      | none => .error "Cannot handle activity of type create.None"
  | "update" =>
      match m.message_object_type with
      | some "note" => .ok [.post_handle_update_ap]
      | some "person" => .ok [.identity_handle_update_ap]
      | some "service" => .ok [.identity_handle_update_ap]
      | some "group" => .ok [.identity_handle_update_ap]
      | some "organization" => .ok [.identity_handle_update_ap]
      | some "application" => .ok [.identity_handle_update_ap]
      | some "question" => .ok []
      | some unknown =>
          if env.post_type_names.contains unknown then
            .ok [.post_handle_update_ap]
          else
            .error ("Cannot handle activity of type update." ++ unknown)
      | none => .error "Cannot handle activity of type update.None"
  | "accept" =>
      match m.message_object_type with
      | some "follow" => .ok [.follow_handle_accept_ap]
      | none => .ok [.follow_handle_accept_ap]
      | some unknown =>
          .error ("Cannot handle activity of type accept." ++ unknown)
  | "reject" =>
      match m.message_object_type with
      | some "follow" => .ok [.follow_handle_reject_ap]
      | none => .ok [.follow_handle_reject_ap]
      | some unknown =>
          .error ("Cannot handle activity of type reject." ++ unknown)
  | "undo" =>
      match m.message_object_type with
      | some "follow" => .ok [.follow_handle_undo_ap]
      | some "block" => .ok [.block_handle_undo_ap]
      | some "like" => .ok [.post_interaction_handle_undo_ap]
      | some "announce" => .ok [.post_interaction_handle_undo_ap]
      | some "http://litepub.social/ns#emojireact" => .ok []
      | some unknown =>
          .error ("Cannot handle activity of type undo." ++ unknown)
      | none => .error "Cannot handle activity of type undo.None"
  | "delete" =>
      match m.object_value with
      | .str _ =>
          if env.identity_exists then .ok [.identity_handle_delete_ap]
          else if env.post_exists then .ok [.post_handle_delete_ap]
          else .ok []
      | .dict _ _ =>
          match m.message_object_type with
          | some "tombstone" => .ok [.post_handle_delete_ap]
          | some "note" => .ok [.post_handle_delete_ap]
          | some unknown =>
              .error ("Cannot handle activity of type delete." ++ unknown)
          | none => .error "Cannot handle activity of type delete.None"
  | "add" => .ok []
  | "remove" => .ok []
  | "move" => .ok []
  | "http://litepub.social/ns#emojireact" => .ok []
  | "flag" => .ok [.report_handle_ap]
  | "__internal__" =>
      match m.message_object_type with
      | some "fetchpost" => .ok [.post_handle_fetch_internal]
      | some "cleartimeline" => .ok [.timeline_event_handle_clear_timeline]
      | some "addfollow" =>
          .ok [.identity_service_handle_internal_add_follow]
      | some unknown =>
          .error ("Cannot handle activity of type __internal__." ++ unknown)
      | none => .error "Cannot handle activity of type __internal__.None"
  | unknown => .error ("Cannot handle activity of type " ++ unknown)

/-- `InboxMessageStates.handle_received` (src/users/models/inbox_message.py
lines 15-174): performs the dispatch, then `return cls.processed` —
every successful run returns the state name `processed`. -/
def handle_received (env : HandlerEnv) (m : InboxMessage) :
    Except String (List DispatchCall × String) :=
  (handleReceivedCalls env m).map (fun calls => (calls, "processed"))

end InboxMessageStates

end Takahe

/-! ## Theorems -/

namespace Takahe

/-- C9: an inbound `create` message whose object is a dict of type
`note` is dispatched by the received-state handler to
`Post.handle_create_ap` if and only if the object dict has a `content`
key; a note object without `content` is dispatched to
`PostInteraction.handle_ap`; neither branch raises, and the handler
returns `processed`. -/
theorem handle_received_create_note (env : HandlerEnv) (m : InboxMessage)
    (typ : String) (keys : List String)
    (h1 : m.message_type = "create")
    (h2 : m.object_value = MsgObject.dict typ keys)
    (h3 : pyLower typ = "note") :
    (InboxMessageStates.handle_received env m =
        Except.ok ([DispatchCall.post_handle_create_ap], "processed") ↔
      keys.contains "content" = true) ∧
    (keys.contains "content" = false →
      InboxMessageStates.handle_received env m =
        Except.ok ([DispatchCall.post_interaction_handle_ap],
          "processed")) := by
  have hobj : m.message_object_type = some "note" := by
    simp [InboxMessage.message_object_type, h2, h3]
  have hcont : m.message_object_has_content = keys.contains "content" := by
    simp [InboxMessage.message_object_has_content, h2]
  have hcalls : InboxMessageStates.handleReceivedCalls env m =
      (if keys.contains "content" then
        Except.ok [DispatchCall.post_handle_create_ap]
      else
        Except.ok [DispatchCall.post_interaction_handle_ap]) := by
    unfold InboxMessageStates.handleReceivedCalls
    rw [h1, hobj, hcont]
    rfl
  cases hc : keys.contains "content" with
  | true =>
      have hres : InboxMessageStates.handle_received env m =
          Except.ok ([DispatchCall.post_handle_create_ap], "processed") := by
        unfold InboxMessageStates.handle_received
        rw [hcalls, hc]
        simp [Except.map]
      exact ⟨⟨fun _ => rfl, fun _ => hres⟩,
        fun hfalse => Bool.noConfusion hfalse⟩
  | false =>
      have hres : InboxMessageStates.handle_received env m =
          Except.ok ([DispatchCall.post_interaction_handle_ap],
            "processed") := by
        unfold InboxMessageStates.handle_received
        rw [hcalls, hc]
        simp [Except.map]
      refine ⟨⟨fun hcontra => ?_, fun htrue => Bool.noConfusion htrue⟩,
        fun _ => hres⟩
      rw [hres] at hcontra
      simp at hcontra

/-- Closed-form witness for `handle_received_create_note`: a
`Create`/`Note` message with a `content` key dispatches to
`Post.handle_create_ap`; one without dispatches to
`PostInteraction.handle_ap`. -/
theorem handle_received_create_note_witness :
    InboxMessageStates.handle_received ⟨[], false, false⟩
      ⟨"Create", MsgObject.dict "Note" ["type", "content"]⟩ =
      Except.ok ([DispatchCall.post_handle_create_ap], "processed") ∧
    InboxMessageStates.handle_received ⟨[], false, false⟩
      ⟨"create", MsgObject.dict "note" ["type"]⟩ =
      Except.ok ([DispatchCall.post_interaction_handle_ap],
        "processed") :=
  ⟨(handle_received_create_note ⟨[], false, false⟩
      ⟨"Create", MsgObject.dict "Note" ["type", "content"]⟩
      "Note" ["type", "content"] (by decide) rfl (by decide)).1.mpr
      (by decide),
   (handle_received_create_note ⟨[], false, false⟩
      ⟨"create", MsgObject.dict "note" ["type"]⟩
      "note" ["type"] (by decide) rfl (by decide)).2 (by decide)⟩

/-- C10: `Client.post2` raises `ValueError` if and only if the response
status code is at least 400, strictly below 500, and not 404; for every
other status code (including 404 and all 5xx) it returns the response
without raising. -/
theorem post2_error_iff (r : Response) :
    ((∃ msg, post2 r = Except.error msg) ↔
      (400 ≤ r.status_code ∧ r.status_code < 500 ∧ r.status_code ≠ 404)) ∧
    (¬(400 ≤ r.status_code ∧ r.status_code < 500 ∧ r.status_code ≠ 404) →
      post2 r = Except.ok r) := by
  constructor
  · constructor
    · intro ⟨msg, hmsg⟩
      by_contra hcond
      simp only [post2, if_neg hcond] at hmsg
      exact Except.noConfusion hmsg
    · intro hcond
      exact ⟨"POST error", by simp only [post2, if_pos hcond]⟩
  · intro hcond
    simp only [post2, if_neg hcond]

/-- Closed-form witness for `post2_error_iff`: status 422 raises,
status 404 and status 500 do not. -/
theorem post2_error_iff_witness :
    (∃ msg, post2 ⟨422⟩ = Except.error msg) ∧
    post2 ⟨404⟩ = Except.ok ⟨404⟩ ∧
    post2 ⟨500⟩ = Except.ok ⟨500⟩ := by
  refine ⟨(post2_error_iff ⟨422⟩).1.mpr (by decide), ?_, ?_⟩
  · exact (post2_error_iff ⟨404⟩).2 (by decide)
  · exact (post2_error_iff ⟨500⟩).2 (by decide)

/-- C1: for every transition (from, to) declared legal in a state graph,
when the handler bound to state `from` returns `to`, the entity's
persisted state becomes `to`, `state_changed` is reset to now, and
`state_attempts` is reset to 0; in particular an InboxMessage in state
`received` whose handler completes successfully gets `processed` back
from the handler and ends in state `processed` with zero attempts. -/
theorem legal_transition_updates_state (g : StateGraph) (e : Entity)
    (target : String) (now : Nat)
    (h : g.legal e.state target = true) :
    attempt g e (.transition target) now =
      { state := target, state_changed := now,
        state_attempted := some now, state_attempts := 0 } ∧
    InboxMessageStates.graph.legal "received" "processed" = true ∧
    (∀ env m res, InboxMessageStates.handle_received env m =
        Except.ok res → res.2 = "processed") ∧
    (∀ e2 : Entity, e2.state = "received" →
      attempt InboxMessageStates.graph e2 (.transition "processed") now =
        { state := "processed", state_changed := now,
          state_attempted := some now, state_attempts := 0 }) := by
  refine ⟨by simp [attempt, h], by decide, ?_, ?_⟩
  · intro env m res hres
    unfold InboxMessageStates.handle_received at hres
    cases hcalls : InboxMessageStates.handleReceivedCalls env m with
    | error msg =>
        rw [hcalls] at hres
        exact Except.noConfusion hres
    | ok calls =>
        rw [hcalls] at hres
        simp only [Except.map] at hres
        cases hres
        rfl
  · intro e2 he2
    have hleg : InboxMessageStates.graph.legal e2.state "processed" = true := by
      rw [he2]; decide
    simp [attempt, hleg]

/-- Closed-form witness for `legal_transition_updates_state`: the inbox
graph's `received → processed` edge is legal, and a received entity with
three prior attempts transitions to `processed` with zero attempts. -/
theorem legal_transition_updates_state_witness :
    attempt InboxMessageStates.graph ⟨"received", 0, none, 3⟩
      (.transition "processed") 7 =
      { state := "processed", state_changed := 7,
        state_attempted := some 7, state_attempts := 0 } :=
  (legal_transition_updates_state InboxMessageStates.graph
    ⟨"received", 0, none, 3⟩ "processed" 7 (by decide)).1

/-- C2: for every entity whose handler returns a target state with no
declared edge from the entity's current state, the persisted state (and
`state_changed`) is left unchanged, yet the attempt is still recorded:
`state_attempted` advances to now. -/
theorem illegal_transition_leaves_state (g : StateGraph) (e : Entity)
    (target : String) (now : Nat)
    (h : g.legal e.state target = false) :
    (attempt g e (.transition target) now).state = e.state ∧
    (attempt g e (.transition target) now).state_changed =
      e.state_changed ∧
    (attempt g e (.transition target) now).state_attempted = some now := by
  simp [attempt, h]

/-- Closed-form witness for `illegal_transition_leaves_state`: a handler
returning `purge` from `received` (no such edge in the inbox graph)
leaves the entity in `received` but records the attempt. -/
theorem illegal_transition_leaves_state_witness :
    (attempt InboxMessageStates.graph ⟨"received", 2, some 3, 1⟩
        (.transition "purge") 9).state = "received" ∧
    (attempt InboxMessageStates.graph ⟨"received", 2, some 3, 1⟩
        (.transition "purge") 9).state_attempted = some 9 :=
  ⟨(illegal_transition_leaves_state InboxMessageStates.graph
      ⟨"received", 2, some 3, 1⟩ "purge" 9 (by decide)).1,
   (illegal_transition_leaves_state InboxMessageStates.graph
      ⟨"received", 2, some 3, 1⟩ "purge" 9 (by decide)).2.2⟩

/-- C3: a handler failure never escapes the scheduling pass (every entity
of the pass yields a recorded outcome); the entity stays in its state with
`state_attempts` incremented per attempt and `state_attempted = now`; it
becomes due again only per `try_interval`; an entity whose state has no
`delete_after` is never garbage-collected; and an InboxMessage with an
unrecognised message type makes `handle_received` raise
`Cannot handle activity of type ...`. -/
theorem handler_error_recorded (g : StateGraph) (e : Entity) (now : Nat) :
    (attempt g e .error now).state = e.state ∧
    (attempt g e .error now).state_attempts = e.state_attempts + 1 ∧
    (attempt g e .error now).state_attempted = some now ∧
    (attempt g e .error now).state_changed = e.state_changed ∧
    (∀ times, (failAttempts g e times).state = e.state ∧
      (failAttempts g e times).state_attempts =
        e.state_attempts + times.length ∧
      (failAttempts g e times).state_changed = e.state_changed) ∧
    (∀ s ti now2, g.findState e.state = some s → s.has_handler = true →
      s.externally_progressed = false → s.try_interval = some ti →
      isDue g (attempt g e .error now) false now2 =
        decide ((now2 : Int) - now ≥ ti)) ∧
    (∀ s, g.findState e.state = some s → s.delete_after = none →
      ∀ locked now2, gcShouldDelete g e locked now2 = false) ∧
    (∀ es hr now2, (schedulerPass g es hr now2).length = es.length) ∧
    (∀ env obj, InboxMessageStates.handleReceivedCalls env ⟨"zap", obj⟩ =
      Except.error "Cannot handle activity of type zap") := by
  have hstep : ∀ (e0 : Entity) (t : Nat),
      attempt g e0 HandlerResult.error t =
        ⟨e0.state, e0.state_changed, some t, e0.state_attempts + 1⟩ := by
    intro e0 t
    rfl
  have hfail : ∀ (times : List Nat) (e0 : Entity),
      (failAttempts g e0 times).state = e0.state ∧
      (failAttempts g e0 times).state_attempts =
        e0.state_attempts + times.length ∧
      (failAttempts g e0 times).state_changed = e0.state_changed := by
    intro times
    induction times with
    | nil => intro e0; exact ⟨rfl, rfl, rfl⟩
    | cons t ts ih =>
        intro e0
        have h0 : failAttempts g e0 (t :: ts) =
            failAttempts g (attempt g e0 HandlerResult.error t) ts := rfl
        rw [h0, hstep e0 t]
        obtain ⟨h1, h2, h3⟩ :=
          ih ⟨e0.state, e0.state_changed, some t, e0.state_attempts + 1⟩
        refine ⟨h1, ?_, h3⟩
        rw [h2]
        simp only [List.length_cons]
        omega
  refine ⟨by simp [attempt], by simp [attempt], by simp [attempt],
    by simp [attempt], fun times => hfail times e, ?_, ?_, ?_, ?_⟩
  · intro s ti now2 hs hh hex hti
    simp [isDue, attempt, hs, hh, hex, hti]
  · intro s hs hnone locked now2
    cases locked with
    | true => simp [gcShouldDelete]
    | false => simp [gcShouldDelete, hs, hnone]
  · intro es hr now2
    simp [schedulerPass]
  · intro env obj
    rfl

/-- Closed-form witness for `handler_error_recorded`: a failing attempt on
a received inbox message keeps the state and bumps the counter; three
failing passes bump it three times; the entity is due again 300 seconds
after the failed attempt; and an unknown message type raises. -/
theorem handler_error_recorded_witness :
    (attempt InboxMessageStates.graph ⟨"received", 0, none, 0⟩
      .error 5).state = "received" ∧
    (failAttempts InboxMessageStates.graph ⟨"received", 0, none, 0⟩
      [5, 310, 620]).state_attempts = 0 + 3 ∧
    isDue InboxMessageStates.graph
      (attempt InboxMessageStates.graph ⟨"received", 0, none, 0⟩ .error 5)
      false 400 = decide ((400 : Int) - 5 ≥ 300) ∧
    InboxMessageStates.handleReceivedCalls ⟨[], false, false⟩
      ⟨"zap", .str "x"⟩ =
      Except.error "Cannot handle activity of type zap" := by
  refine ⟨(handler_error_recorded InboxMessageStates.graph
      ⟨"received", 0, none, 0⟩ 5).1, ?_, ?_, ?_⟩
  · exact ((handler_error_recorded InboxMessageStates.graph
      ⟨"received", 0, none, 0⟩ 5).2.2.2.2.1 [5, 310, 620]).2.1
  · exact (handler_error_recorded InboxMessageStates.graph
      ⟨"received", 0, none, 0⟩ 5).2.2.2.2.2.1 InboxMessageStates.received
      300 400 (by decide) rfl rfl rfl
  · exact (handler_error_recorded InboxMessageStates.graph
      ⟨"received", 0, none, 0⟩ 5).2.2.2.2.2.2.2.2 ⟨[], false, false⟩
      (.str "x")

/-- C4: a forced/manual transition (`transition_perform`) sets the
entity's state directly to the given target for every target value —
independent of the entity's current state, so no transition-legality
check is involved and no handler runs — and the entity is due for its
new state on the next scheduling pass whenever the target state has a
handler and is not externally progressed. -/
theorem transition_perform_forces_state (e : Entity) (target : String)
    (now : Nat) :
    (transition_perform e target now).state = target ∧
    (transition_perform e target now).state_changed = now ∧
    (transition_perform e target now).state_attempts = 0 ∧
    (∀ e2, transition_perform e2 target now =
      transition_perform e target now) ∧
    (∀ g s now2, g.findState target = some s → s.has_handler = true →
      s.externally_progressed = false →
      isDue g (transition_perform e target now) false now2 = true) := by
  refine ⟨rfl, rfl, rfl, fun e2 => rfl, ?_⟩
  intro g s now2 hs hh hex
  simp [isDue, transition_perform, hs, hh, hex]

/-- Closed-form witness for `transition_perform_forces_state`: forcing an
entity (whatever its state) to `received` sets the state and makes it
immediately due on the inbox graph. -/
theorem transition_perform_forces_state_witness :
    (transition_perform ⟨"purge", 11, some 12, 4⟩ "received" 20).state =
      "received" ∧
    isDue InboxMessageStates.graph
      (transition_perform ⟨"purge", 11, some 12, 4⟩ "received" 20)
      false 20 = true :=
  ⟨(transition_perform_forces_state ⟨"purge", 11, some 12, 4⟩
      "received" 20).1,
   (transition_perform_forces_state ⟨"purge", 11, some 12, 4⟩
      "received" 20).2.2.2.2 InboxMessageStates.graph
      InboxMessageStates.received 20 (by decide) rfl rfl⟩

/-- C5: an entity in an `externally_progressed` state is never selected
as due by the polling path (it can be due only when explicitly signaled);
in particular an InboxMessage in state `processed` is never polled due. -/
theorem externally_progressed_not_polled (g : StateGraph) (e : Entity)
    (s : State) (h : g.findState e.state = some s)
    (hex : s.externally_progressed = true) :
    (∀ now, isDue g e false now = false) ∧
    (∀ sig now, isDue g e sig now = true → sig = true) ∧
    (∀ e2 : Entity, e2.state = "processed" → ∀ now2,
      isDue InboxMessageStates.graph e2 false now2 = false) := by
  have hpoll : ∀ now, isDue g e false now = false := by
    intro now
    simp [isDue, h, hex]
  refine ⟨hpoll, ?_, ?_⟩
  · intro sig now hdue
    cases sig with
    | true => rfl
    | false => rw [hpoll now] at hdue; exact Bool.noConfusion hdue
  · intro e2 he2 now2
    have hfind : InboxMessageStates.graph.findState e2.state =
        some InboxMessageStates.processed := by
      rw [he2]; rfl
    simp [isDue, hfind, InboxMessageStates.processed]

/-- Closed-form witness for `externally_progressed_not_polled`: a
processed inbox message is not due by polling at time 10^6. -/
theorem externally_progressed_not_polled_witness :
    isDue InboxMessageStates.graph ⟨"processed", 0, none, 0⟩ false
      1000000 = false :=
  (externally_progressed_not_polled InboxMessageStates.graph
    ⟨"processed", 0, none, 0⟩ InboxMessageStates.processed rfl rfl).1
    1000000

/-- C6: the garbage collector deletes an entity whose state has
`delete_after = D` exactly once `now - state_changed >= D` (so never
earlier), retains entities in states without `delete_after` forever, and
the InboxMessage states carry `delete_after` 259200 / 86400 / 86400
for `received` / `processed` / `purge`. -/
theorem delete_after_gc (g : StateGraph) (e : Entity) (s : State)
    (h : g.findState e.state = some s) :
    (∀ d, s.delete_after = some d → ∀ now,
      (gcShouldDelete g e false now = true ↔
        e.state_changed + d ≤ now)) ∧
    (s.delete_after = none →
      ∀ locked now, gcShouldDelete g e locked now = false) ∧
    InboxMessageStates.received.delete_after = some 259200 ∧
    InboxMessageStates.processed.delete_after = some 86400 ∧
    InboxMessageStates.purge.delete_after = some 86400 := by
  refine ⟨?_, ?_, rfl, rfl, rfl⟩
  · intro d hd now
    rw [show gcShouldDelete g e false now =
        decide ((now : Int) - e.state_changed ≥ d) from by
      simp [gcShouldDelete, h, hd]]
    rw [decide_eq_true_iff]
    omega
  · intro hnone locked now
    cases locked with
    | true => simp [gcShouldDelete]
    | false => simp [gcShouldDelete, h, hnone]

/-- Closed-form witness for `delete_after_gc`: a received inbox message
last changed at time 100 is not collected at time 259299 and is collected
at time 259300. -/
theorem delete_after_gc_witness :
    gcShouldDelete InboxMessageStates.graph ⟨"received", 100, none, 0⟩
      false 259300 = true ∧
    gcShouldDelete InboxMessageStates.graph ⟨"received", 100, none, 0⟩
      false 259299 = false := by
  have hiff := (delete_after_gc InboxMessageStates.graph
    ⟨"received", 100, none, 0⟩ InboxMessageStates.received rfl).1
    259200 rfl
  constructor
  · exact (hiff 259300).mpr (by norm_num)
  · have := (hiff 259299).not
    rw [Bool.not_eq_true] at this
    exact this.mpr (by norm_num)

/-- Every member of a valid history is a well-formed execution. -/
theorem ValidHistory.wf_of_mem {T L : Nat} {xs : List Execution}
    (hv : ValidHistory T L xs) : ∀ x ∈ xs, x.wf T := by
  induction hv with
  | nil =>
      intro x hm
      exact absurd hm (List.not_mem_nil x)
  | first y hwf =>
      intro x hm
      rw [List.mem_singleton] at hm
      rw [hm]
      exact hwf
  | cons y prev rest hwf hclaim htail ih =>
      intro x hm
      rcases List.mem_cons.mp hm with h | h
      · rw [h]; exact hwf
      · exact ih x h

/-- An execution is out of flight by the time its lock is released:
it ends at its persist time, and a crashed worker's handler is cancelled
at the timeout `T`, before the lock expiry `L`. -/
theorem Execution.activeEnd_le_releaseTime {T L : Nat} (hTL : T ≤ L)
    (x : Execution) : x.activeEnd T ≤ x.releaseTime L := by
  cases hres : x.result with
  | some f => simp [Execution.activeEnd, Execution.releaseTime, hres]
  | none =>
      simp only [Execution.activeEnd, Execution.releaseTime, hres]
      omega

/-- A well-formed execution starts no later than it ends. -/
theorem Execution.start_le_activeEnd {T : Nat} (x : Execution)
    (hwf : x.wf T) : x.start ≤ x.activeEnd T := by
  cases hres : x.result with
  | some f =>
      have h := hwf f hres
      simp only [Execution.activeEnd, hres]
      exact h.1
  | none =>
      simp only [Execution.activeEnd, hres]
      omega

/-- In a valid history, everything below the head went out of flight
before the head's claim: the claim succeeded only after the previous
lock was released or expired, and locks outlive handler executions. -/
theorem ValidHistory.tail_activeEnd_le {T L : Nat} (hTL : T ≤ L)
    {xs : List Execution} (hv : ValidHistory T L xs) :
    ∀ x rest, xs = x :: rest → ∀ b ∈ rest, b.activeEnd T ≤ x.start := by
  induction hv with
  | nil =>
      intro x rest h
      exact absurd h (by simp)
  | first y hwf =>
      intro x rest h b hb
      cases h
      exact absurd hb (List.not_mem_nil b)
  | cons y prev rest2 hwf hclaim htail ih =>
      intro x rest h b hb
      cases h
      rcases List.mem_cons.mp hb with h1 | h1
      · rw [h1]
        have h2 := Execution.activeEnd_le_releaseTime hTL prev
        omega
      · have h2 := ih prev rest2 rfl b h1
        have hprevwf := ValidHistory.wf_of_mem htail prev
          (List.mem_cons_self prev rest2)
        have h3 := Execution.start_le_activeEnd prev hprevwf
        have h4 := Execution.activeEnd_le_releaseTime (L := L) hTL prev
        omega

/-- C7: at most one handler execution is in flight per entity at any
instant: in any per-entity history admitted by the atomic claim/lock
step — with the lock expiry `L` at least the enforced handler timeout
`T` — any two executions in flight at the same instant are the same
execution, regardless of which workers ran them. -/
theorem lock_serializes_executions (T L : Nat) (hTL : T ≤ L)
    (hist : List Execution) (hv : ValidHistory T L hist) (t : Nat)
    (a b : Execution) (ha : a ∈ hist) (hb : b ∈ hist)
    (hat : a.inFlight T t) (hbt : b.inFlight T t) : a = b := by
  revert ha hb
  induction hv with
  | nil =>
      intro ha hb
      exact absurd ha (List.not_mem_nil a)
  | first x hwf =>
      intro ha hb
      rw [List.mem_singleton] at ha hb
      rw [ha, hb]
  | cons x prev rest hwf hclaim htail ih =>
      intro ha hb
      have hchain := ValidHistory.tail_activeEnd_le hTL
        (ValidHistory.cons x prev rest hwf hclaim htail) x (prev :: rest)
        rfl
      rcases List.mem_cons.mp ha with ha1 | ha1 <;>
        rcases List.mem_cons.mp hb with hb1 | hb1
      · rw [ha1, hb1]
      · exfalso
        have h1 := hchain b hb1
        have h2 := (ha1 ▸ hat).1
        have h3 := hbt.2
        omega
      · exfalso
        have h1 := hchain a ha1
        have h2 := (hb1 ▸ hbt).1
        have h3 := hat.2
        omega
      · exact ih ha1 hb1

/-- Closed-form witness for `lock_serializes_executions`: with handler
timeout 10 and lock expiry 20, a history of a crashed claim at time 0
followed by a legal claim at time 30 admits only one execution in flight
at time 32 — the crashed one is already out of flight. -/
theorem lock_serializes_executions_witness :
    (⟨1, 30, some 35⟩ : Execution) = ⟨1, 30, some 35⟩ ∧
    ¬(⟨0, 0, none⟩ : Execution).inFlight 10 32 := by
  constructor
  · exact lock_serializes_executions 10 20 (by decide)
      [⟨1, 30, some 35⟩, ⟨0, 0, none⟩]
      (ValidHistory.cons ⟨1, 30, some 35⟩ ⟨0, 0, none⟩ []
        (fun f hf => by cases hf; exact ⟨by decide, by decide⟩)
        (by decide)
        (ValidHistory.first ⟨0, 0, none⟩ (fun f hf => Option.noConfusion hf)))
      32 ⟨1, 30, some 35⟩ ⟨1, 30, some 35⟩
      (by decide) (by decide)
      (show 30 ≤ 32 ∧ 32 < 35 by decide)
      (show 30 ≤ 32 ∧ 32 < 35 by decide)
  · intro h
    exact absurd h.2 (by decide)

/-- C8: on every request, `ConfigLoadingMiddleware` reloads the config
exactly when the cache is unset or at least `refresh_interval` (30.0)
seconds have elapsed since the middleware's last reload, and otherwise
leaves the cached config unchanged, in both cases passing the request
through unmodified. -/
theorem configLoadingCall_spec (st : ConfigCacheState) (t1 t2 : ℚ)
    (loaded : Nat) (get_response : Nat → Nat) (request : Nat) :
    ((st.system.isNone ∨ t1 - st.config_ts ≥ refresh_interval) →
      (configLoadingCall st t1 t2 loaded get_response request).1 =
        { system := some loaded, config_ts := t2 }) ∧
    (¬(st.system.isNone ∨ t1 - st.config_ts ≥ refresh_interval) →
      (configLoadingCall st t1 t2 loaded get_response request).1 = st) ∧
    (configLoadingCall st t1 t2 loaded get_response request).2 =
      get_response request := by
  refine ⟨?_, ?_, rfl⟩
  · intro hcond
    simp only [configLoadingCall, if_pos hcond]
  · intro hcond
    simp only [configLoadingCall, if_neg hcond]

/-- Closed-form witness for `configLoadingCall_spec`: with a populated
cache last refreshed at time 100, a request at time 110 leaves the cache
unchanged, while a request at time 131 reloads it. -/
theorem configLoadingCall_spec_witness :
    (configLoadingCall ⟨some 7, 100⟩ 110 110 9 id 5).1 = ⟨some 7, 100⟩ ∧
    (configLoadingCall ⟨some 7, 100⟩ 131 132 9 id 5).1 = ⟨some 9, 132⟩ ∧
    (configLoadingCall ⟨some 7, 100⟩ 110 110 9 id 5).2 = 5 := by
  refine ⟨?_, ?_, (configLoadingCall_spec ⟨some 7, 100⟩ 110 110 9 id 5).2.2⟩
  · exact (configLoadingCall_spec ⟨some 7, 100⟩ 110 110 9 id 5).2.1
      (by norm_num [refresh_interval])
  · exact (configLoadingCall_spec ⟨some 7, 100⟩ 131 132 9 id 5).1
      (by norm_num [refresh_interval])

end Takahe
